import Mathlib

/-!
Verification development for the Shelly Plus Plug spot-price illuminator
script (src/shelly/index.js). The script is written for the mjs engine:
strings are byte strings and `s.at(i)` returns the numeric byte, which is
why the embedding passes character codes (as `Nat`) to `hexCharToInt`.
JavaScript numbers are modelled as exact rationals; `Math.round` rounds
half toward positive infinity; a `die(...)` call (fatal stop) is modelled
as `Option.none` / an `Except.error` / an `Effect.died` value depending on
the context.
-/

namespace PlusPlug

/-- Values a parsed JSON field can hold in the model: the field may be
absent (`undef`, notably `price.PriceWithTax` when the body has no such
key), `null`, a boolean, or a number. The mjs engine NaN-boxes values:
its relational operators read both operands as doubles, so any
non-number operand (undefined, null, a boolean, ...) is already a NaN
double and the comparison is false. -/
inductive JVal
  | undef
  | jnull
  | jbool (b : Bool)
  | jnum (q : Rat)
deriving DecidableEq

/-- The double an mjs relational operand reads as; `none` stands for NaN.
Only an actual number carries a numeric value - mjs performs no
ECMAScript ToNumber coercion here. -/
def toNumber : JVal -> Option Rat
  | JVal.jnum q => some q
  | _ => none

/-- The comparison `v >= f` of the source (line 233): a NaN operand (any
non-number under mjs) makes the relational comparison false. -/
def jsGE (v : JVal) (f : Rat) : Bool :=
  match toNumber v with
  | none => false
  | some q => decide (f <= q)

/-- One entry of `priceColorMap`. `shellyRGB` is absent (undefined) until
`checkConfig` precomputes it; the model carries `[]` for absent. -/
structure MapEntry where
  fromPriceWithTax : Rat
  color : String
  onBrightness : Rat
  offBrightness : Rat
  shellyRGB : List Int
deriving DecidableEq

/-- The default `priceColorMap` of the source (lines 18-24); 0.09, 0.15
and 0.25 written as exact rationals through `Rat.divInt`. -/
def priceColorMap : List MapEntry :=
  [⟨-1, "purple", 80, 10, []⟩,
   ⟨0, "green", 80, 10, []⟩,
   ⟨Rat.divInt 9 100, "turquoise", 50, 7, []⟩,
   ⟨Rat.divInt 15 100, "#FF4500", 50, 10, []⟩,
   ⟨Rat.divInt 25 100, "red", 50, 10, []⟩]

/-- The CSS color name map `COLOR_NAMES` of the source (lines 38-187). -/
def COLOR_NAMES : List (String × String) :=
[
  ("aliceblue", "#F0F8FF"),
  ("antiquewhite", "#FAEBD7"),
  ("aqua", "#00FFFF"),
  ("aquamarine", "#7FFFD4"),
  ("azure", "#F0FFFF"),
  ("beige", "#F5F5DC"),
  ("bisque", "#FFE4C4"),
  ("black", "#000000"),
  ("blanchedalmond", "#FFEBCD"),
  ("blue", "#0000FF"),
  ("blueviolet", "#8A2BE2"),
  ("brown", "#A52A2A"),
  ("burlywood", "#DEB887"),
  ("cadetblue", "#5F9EA0"),
  ("chartreuse", "#7FFF00"),
  ("chocolate", "#D2691E"),
  ("coral", "#FF7F50"),
  ("cornflowerblue", "#6495ED"),
  ("cornsilk", "#FFF8DC"),
  ("crimson", "#DC143C"),
  ("cyan", "#00FFFF"),
  ("darkblue", "#00008B"),
  ("darkcyan", "#008B8B"),
  ("darkgoldenrod", "#B8860B"),
  ("darkgray", "#A9A9A9"),
  ("darkgreen", "#006400"),
  ("darkgrey", "#A9A9A9"),
  ("darkkhaki", "#BDB76B"),
  ("darkmagenta", "#8B008B"),
  ("darkolivegreen", "#556B2F"),
  ("darkorange", "#FF8C00"),
  ("darkorchid", "#9932CC"),
  ("darkred", "#8B0000"),
  ("darksalmon", "#E9967A"),
  ("darkseagreen", "#8FBC8F"),
  ("darkslateblue", "#483D8B"),
  ("darkslategray", "#2F4F4F"),
  ("darkslategrey", "#2F4F4F"),
  ("darkturquoise", "#00CED1"),
  ("darkviolet", "#9400D3"),
  ("deeppink", "#FF1493"),
  ("deepskyblue", "#00BFFF"),
  ("dimgray", "#696969"),
  ("dimgrey", "#696969"),
  ("dodgerblue", "#1E90FF"),
  ("firebrick", "#B22222"),
  ("floralwhite", "#FFFAF0"),
  ("forestgreen", "#228B22"),
  ("fuchsia", "#FF00FF"),
  ("gainsboro", "#DCDCDC"),
  ("ghostwhite", "#F8F8FF"),
  ("gold", "#FFD700"),
  ("goldenrod", "#DAA520"),
  ("gray", "#808080"),
  ("green", "#008000"),
  ("greenyellow", "#ADFF2F"),
  ("grey", "#808080"),
  ("honeydew", "#F0FFF0"),
  ("hotpink", "#FF69B4"),
  ("indianred", "#CD5C5C"),
  ("indigo", "#4B0082"),
  ("ivory", "#FFFFF0"),
  ("khaki", "#F0E68C"),
  ("lavender", "#E6E6FA"),
  ("lavenderblush", "#FFF0F5"),
  ("lawngreen", "#7CFC00"),
  ("lemonchiffon", "#FFFACD"),
  ("lightblue", "#ADD8E6"),
  ("lightcoral", "#F08080"),
  ("lightcyan", "#E0FFFF"),
  ("lightgoldenrodyellow", "#FAFAD2"),
  ("lightgray", "#D3D3D3"),
  ("lightgreen", "#90EE90"),
  ("lightgrey", "#D3D3D3"),
  ("lightpink", "#FFB6C1"),
  ("lightsalmon", "#FFA07A"),
  ("lightseagreen", "#20B2AA"),
  ("lightskyblue", "#87CEFA"),
  ("lightslategray", "#778899"),
  ("lightslategrey", "#778899"),
  ("lightsteelblue", "#B0C4DE"),
  ("lightyellow", "#FFFFE0"),
  ("lime", "#00FF00"),
  ("limegreen", "#32CD32"),
  ("linen", "#FAF0E6"),
  ("magenta", "#FF00FF"),
  ("maroon", "#800000"),
  ("mediumaquamarine", "#66CDAA"),
  ("mediumblue", "#0000CD"),
  ("mediumorchid", "#BA55D3"),
  ("mediumpurple", "#9370DB"),
  ("mediumseagreen", "#3CB371"),
  ("mediumslateblue", "#7B68EE"),
  ("mediumspringgreen", "#00FA9A"),
  ("mediumturquoise", "#48D1CC"),
  ("mediumvioletred", "#C71585"),
  ("midnightblue", "#191970"),
  ("mintcream", "#F5FFFA"),
  ("mistyrose", "#FFE4E1"),
  ("moccasin", "#FFE4B5"),
  ("navajowhite", "#FFDEAD"),
  ("navy", "#000080"),
  ("oldlace", "#FDF5E6"),
  ("olive", "#808000"),
  ("olivedrab", "#6B8E23"),
  ("orange", "#FFA500"),
  ("orangered", "#FF4500"),
  ("orchid", "#DA70D6"),
  ("palegoldenrod", "#EEE8AA"),
  ("palegreen", "#98FB98"),
  ("paleturquoise", "#AFEEEE"),
  ("palevioletred", "#DB7093"),
  ("papayawhip", "#FFEFD5"),
  ("peachpuff", "#FFDAB9"),
  ("peru", "#CD853F"),
  ("pink", "#FFC0CB"),
  ("plum", "#DDA0DD"),
  ("powderblue", "#B0E0E6"),
  ("purple", "#800080"),
  ("rebeccapurple", "#663399"),
  ("red", "#FF0000"),
  ("rosybrown", "#BC8F8F"),
  ("royalblue", "#4169E1"),
  ("saddlebrown", "#8B4513"),
  ("salmon", "#FA8072"),
  ("sandybrown", "#F4A460"),
  ("seagreen", "#2E8B57"),
  ("seashell", "#FFF5EE"),
  ("sienna", "#A0522D"),
  ("silver", "#C0C0C0"),
  ("skyblue", "#87CEEB"),
  ("slateblue", "#6A5ACD"),
  ("slategray", "#708090"),
  ("slategrey", "#708090"),
  ("snow", "#FFFAFA"),
  ("springgreen", "#00FF7F"),
  ("steelblue", "#4682B4"),
  ("tan", "#D2B48C"),
  ("teal", "#008080"),
  ("thistle", "#D8BFD8"),
  ("tomato", "#FF6347"),
  ("turquoise", "#40E0D0"),
  ("violet", "#EE82EE"),
  ("wheat", "#F5DEB3"),
  ("white", "#FFFFFF"),
  ("whitesmoke", "#F5F5F5"),
  ("yellow", "#FFFF00"),
  ("yellowgreen", "#9ACD32")
]

/-- Byte of a character code that is a hexadecimal digit: the three range
tests of `hexCharToInt` (lines 279-284). -/
def isHexDigitCode (c : Nat) : Bool :=
  (decide (96 < c) && decide (c < 103)) ||
  (decide (64 < c) && decide (c < 71)) ||
  (decide (47 < c) && decide (c < 58))

/-- `hexCharToInt` (lines 277-287): character code to hex digit value,
lower case first, then upper case, then decimal digits; anything else
reaches `die` (modelled `none`). -/
def hexCharToInt (c : Nat) : Option Nat :=
  if 96 < c ∧ c < 103 then some (10 + (c - 97))
  else if 64 < c ∧ c < 71 then some (10 + (c - 65))
  else if 47 < c ∧ c < 58 then some (c - 48)
  else none

/-- mjs `s.at(i)`: the numeric byte at index i, undefined (`none`) past the
end. Comparing undefined in `hexCharToInt` makes every range test false,
so the `none` propagates to the same `die`. -/
def strAt (s : String) (i : Nat) : Option Nat :=
  Option.map Char.toNat (s.toList.get? i)

/-- JavaScript `s.slice(i, j)` for 0 <= i <= j. -/
def jsSlice (s : String) (i j : Nat) : String :=
  String.mk ((s.toList.drop i).take (j - i))

/-- `hexToInt` (lines 290-292): `16 * hexCharToInt(hex.at(0)) +
hexCharToInt(hex.at(1))`; an invalid or missing digit dies. -/
def hexToInt (hex : String) : Option Nat :=
  match strAt hex 0, strAt hex 1 with
  | some c0, some c1 =>
    match hexCharToInt c0, hexCharToInt c1 with
    | some a, some b => some (16 * a + b)
    | _, _ => none
  | _, _ => none

/-- JavaScript `Math.round` applied to the nonnegative ratio n / d: round
half up, computed as floor of (2n + d) / (2d) in natural division. The
lemma `jsRoundRatio_eq_floor` below identifies it with the mathematical
round-half-up ⌊n / d + 1/2⌋. -/
def jsRoundRatio (n d : Nat) : Nat := (2 * n + d) / (2 * d)

/-- The scaling inside `hexToShellyColorValue` (line 296): multiply by the
literal constant 0.392156 (that is, 392156 / 1000000 - not 100/255) and
`Math.round`. -/
def shellyChannelScale (v : Nat) : Int :=
  (jsRoundRatio (v * 392156) 1000000 : Int)

/-- `hexToShellyColorValue` (lines 295-297). -/
def hexToShellyColorValue (hex : String) : Option Int :=
  Option.map shellyChannelScale (hexToInt hex)

/-- `RGBStringToShellyValues` (lines 300-306): the three 2-digit slices of
an `#RRGGBB` string, each converted independently. -/
def RGBStringToShellyValues (rgbString : String) : Option (List Int) :=
  match hexToShellyColorValue (jsSlice rgbString 1 3),
        hexToShellyColorValue (jsSlice rgbString 3 5),
        hexToShellyColorValue (jsSlice rgbString 5 7) with
  | some r, some g, some b => some [r, g, b]
  | _, _, _ => none

/-- `colorNameToRGBString` (lines 308-315): linear scan of `COLOR_NAMES`;
a name that is not there reaches `die` (modelled `none`). -/
def colorNameToRGBString (name : String) : Option String :=
  Option.map Prod.snd (COLOR_NAMES.find? (fun p => p.fst == name))

/-- `brightnessInRange` (lines 317-319): `0 <= brightness && 100 >=
brightness` - a pure range test, nothing about integrality. -/
def brightnessInRange (brightness : Rat) : Bool :=
  decide (0 <= brightness) && decide (100 >= brightness)

/-- The distinct fatal outcomes of `checkConfig` (lines 368-399): one per
`die` call site, plus the mjs TypeError raised by
`priceColorMap[0].fromPriceWithTax` on an empty table. -/
inductive ConfigError
  | typeErrorEmpty
  | firstFloorPositive
  | orderFailure
  | onBrightnessOut (color : String)
  | offBrightnessOut (color : String)
  | unknownColor (color : String)
  | invalidHexDigit
deriving DecidableEq

/-- The rising-order loop of `checkConfig` (lines 379-382) as a predicate:
true when every adjacent pair has `map[i-1].fromPriceWithTax <
map[i].fromPriceWithTax` (the loop dies on `>=`). -/
def risingOrder : List MapEntry -> Bool
  | [] => true
  | [_] => true
  | a :: b :: rest =>
    decide (a.fromPriceWithTax < b.fromPriceWithTax) && risingOrder (b :: rest)

/-- First stage of `checkConfig` (lines 376-377): reading
`priceColorMap[0]` of an empty table is a fatal TypeError; a first price
above zero dies. -/
def checkFirstFloor : List MapEntry -> Except ConfigError Unit
  | [] => Except.error ConfigError.typeErrorEmpty
  | e :: _ =>
    if e.fromPriceWithTax > 0 then Except.error ConfigError.firstFloorPositive
    else Except.ok ()

/-- Second stage of `checkConfig` (lines 379-382): die at the first
adjacent pair that is not strictly rising. -/
def checkRising : List MapEntry -> Except ConfigError Unit
  | [] => Except.ok ()
  | [_] => Except.ok ()
  | a :: b :: rest =>
    if a.fromPriceWithTax >= b.fromPriceWithTax then
      Except.error ConfigError.orderFailure
    else checkRising (b :: rest)

/-- Third stage of `checkConfig` (lines 384-389): per entry, the ON
brightness is checked before the OFF brightness; the first out-of-range
value dies. -/
def checkBrightness : List MapEntry -> Except ConfigError Unit
  | [] => Except.ok ()
  | e :: rest =>
    if !brightnessInRange e.onBrightness then
      Except.error (ConfigError.onBrightnessOut e.color)
    else if !brightnessInRange e.offBrightness then
      Except.error (ConfigError.offBrightnessOut e.color)
    else checkBrightness rest

/-- `color[0] === char 35` (the marker character) of line 394: a color token
starting with the hash marker is used as is, anything else goes through
the name lookup and dies when absent. -/
def resolveColorToken (c : String) : Except ConfigError String :=
  if c.toList.head? = some (Char.ofNat 35) then Except.ok c
  else
    match colorNameToRGBString c with
    | some s => Except.ok s
    | none => Except.error (ConfigError.unknownColor c)

/-- Fourth stage of `checkConfig` (lines 392-398): resolve every color
token and store the precomputed `shellyRGB` on the entry; an invalid hex
digit inside `RGBStringToShellyValues` dies. -/
def precompute : List MapEntry -> Except ConfigError (List MapEntry)
  | [] => Except.ok []
  | e :: rest =>
    match resolveColorToken e.color with
    | Except.error err => Except.error err
    | Except.ok s =>
      match RGBStringToShellyValues s with
      | none => Except.error ConfigError.invalidHexDigit
      | some rgb =>
        match precompute rest with
        | Except.error err => Except.error err
        | Except.ok tail =>
          Except.ok (⟨e.fromPriceWithTax, e.color, e.onBrightness,
                      e.offBrightness, rgb⟩ :: tail)

/-- `checkConfig` (lines 368-399) without the external plugs-ui mode fix:
the four table checks in source order, stopping at the first violation;
on success the table with precomputed `shellyRGB` values. -/
def checkConfig (m : List MapEntry) : Except ConfigError (List MapEntry) :=
  match checkFirstFloor m with
  | Except.error e => Except.error e
  | Except.ok _ =>
    match checkRising m with
    | Except.error e => Except.error e
    | Except.ok _ =>
      match checkBrightness m with
      | Except.error e => Except.error e
      | Except.ok _ => precompute m

/-- Whether an `Except` result is a success. -/
def isOkE {α : Type} (x : Except ConfigError α) : Bool :=
  match x with
  | Except.ok _ => true
  | Except.error _ => false

/-- Whether a color token survives the precomputation of `checkConfig`:
it resolves to an rgb string whose three slices are valid hex pairs. -/
def colorResolves (c : String) : Bool :=
  match resolveColorToken c with
  | Except.error _ => false
  | Except.ok s => (RGBStringToShellyValues s).isSome

/-- The descending scan of `handleResponse` (lines 232-241): i runs from
`length - 1` down to 0 and the first entry with `price.PriceWithTax >=
entry.fromPriceWithTax` wins, so the recursion tries the tail (higher
indices) before the head. `none` is the fall-through to `die` (line 242). -/
def findPriceEntry (v : JVal) : List MapEntry -> Option MapEntry
  | [] => none
  | e :: rest =>
    match findPriceEntry v rest with
    | some r => some r
    | none => if jsGE v e.fromPriceWithTax then some e else none

/-- Externally visible actions of a handler run. `setLight` stands for a
`configureLight` call (the write itself still requires the device to be in
switch mode, an external condition); `died` is a `die` call. -/
inductive Effect
  | setLight (rgb : List Int) (onB : Rat) (offB : Rat)
  | logMsg (msg : String)
  | died (msg : String)
deriving DecidableEq

/-- Message of the `die` on line 242. -/
def dieNotFoundMsg : String := "PPI: price not found in color map, crash."

/-- Message of the log on line 250. -/
def invalidRespMsg : String := "PPI: Backend call invalid response, no color change"

/-- `disConnected` (lines 326-330): white at brightness 50/10, and the
connected flag drops to false. The color lookup cannot fail for "white"
but the model keeps the `die` paths it would have. -/
def disConnectedEffects : List Effect :=
  match colorNameToRGBString "white" with
  | none => [Effect.died "PPI: color white not in color map - crash"]
  | some s =>
    match RGBStringToShellyValues s with
    | none => [Effect.died "PPI: invalid hex value, crash"]
    | some rgb => [Effect.setLight rgb 50 10]

/-- A fetch callback argument: HTTP status code, and the `PriceWithTax`
field of the JSON-parsed body. (A body that does not parse as JSON crashes
the script inside `JSON.parse`, before any of the modelled branches; the
model covers parsed bodies.) `Option.none` is a falsy `response`. -/
structure Response where
  code : Nat
  priceWithTax : JVal
deriving DecidableEq

/-- `handleResponse` (lines 220-252) over a given (already validated)
price color map: on a 200 response the connected flag is raised, then the
descending scan either configures the light of the matching entry or dies;
on anything else `disConnected` runs only when the flag was already false,
and the invalid-response line is logged. Returns the new connected flag
and the effects in order. -/
def handleResponse (pmap : List MapEntry) (isConnected : Bool)
    (resp : Option Response) : Bool × List Effect :=
  match resp with
  | some r =>
    if r.code = 200 then
      match findPriceEntry r.priceWithTax pmap with
      | some e => (true, [Effect.setLight e.shellyRGB e.onBrightness e.offBrightness])
      | none => (true, [Effect.died dieNotFoundMsg])
    else if isConnected then (isConnected, [Effect.logMsg invalidRespMsg])
    else (false, disConnectedEffects ++ [Effect.logMsg invalidRespMsg])
  | none =>
    if isConnected then (isConnected, [Effect.logMsg invalidRespMsg])
    else (false, disConnectedEffects ++ [Effect.logMsg invalidRespMsg])

/-- `isQuarterOfAnHour` (lines 254-262) over the two minute characters
(`sys.time.slice(3,5)`): hex-convert each byte, form `10 * a + b`, test
mod 15. A non-digit byte reaches the `die` inside `hexCharToInt`. -/
def isQuarterOfAnHour (minStr : String) : Option Bool :=
  match strAt minStr 0, strAt minStr 1 with
  | some c0, some c1 =>
    match hexCharToInt c0, hexCharToInt c1 with
    | some a, some b => some (((10 * a + b) % 15) == 0)
    | _, _ => none
  | _, _ => none

/-- The gate of `tick` (lines 264-274): a fetch is issued when the
connected flag is false, or (DEBUG) always, or on a quarter-hour minute.
`some b` - b tells whether `Shelly.call("HTTP.GET", ...)` was issued;
`none` - the minute parse died. The disjunction short-circuits, so an
offline tick never parses the minute. -/
def tickFetches (DEBUG isConnected : Bool) (minStr : String) : Option Bool :=
  if isConnected = false then some true
  else if DEBUG then some true
  else isQuarterOfAnHour minStr

/-- The two decimal digit characters of a minute value, as
`sys.time.slice(3,5)` delivers them for minutes 0-59. -/
def minuteStr (m : Nat) : String :=
  String.mk [Char.ofNat (48 + m / 10), Char.ofNat (48 + m % 10)]

/-- The `event.info` fields `handleEvents` looks at. `Option.none` at the
use site stands for an event failing the typeof guards (lines 335-340). -/
structure EventInfo where
  component : String
  event : String
deriving DecidableEq

/-- The connect-event test of `handleEvents` (lines 343-355): with cloud
enabled only cloud "connected" counts, otherwise only wifi
"sta_ip_acquired". -/
def connectMatches (cloudEnabled : Bool) (info : EventInfo) : Bool :=
  if cloudEnabled then info.component == "cloud" && info.event == "connected"
  else info.component == "wifi" && info.event == "sta_ip_acquired"

/-- The disconnect-event test of `handleEvents` (lines 358-363). -/
def disconnectMatches (info : EventInfo) : Bool :=
  (info.component == "wifi" && info.event == "sta_disconnected") ||
  (info.component == "cloud" && info.event == "disconnected")

/-- `handleEvents` (lines 333-366): a malformed event returns early; a
connect event runs `tick()` - including its gate; a disconnect event runs
`disConnected`. `some (fetched, connectedAfter, effects)`; `none` - the
minute parse inside the tick died. -/
def handleEvents (cloudEnabled DEBUG isConnected : Bool) (minStr : String)
    (ev : Option EventInfo) : Option (Bool × Bool × List Effect) :=
  match ev with
  | none => some (false, isConnected, [])
  | some info =>
    match (if connectMatches cloudEnabled info
           then tickFetches DEBUG isConnected minStr
           else some false) with
    | none => none
    | some fetched =>
      if disconnectMatches info then some (fetched, false, disConnectedEffects)
      else some (fetched, isConnected, [])

/-- State the scheduler-related claims range over: the global
`isConnected` flag, and how many issued fetches have not yet delivered
their callback. The source keeps no such counter - `inFlight` is part of
the model only, to express in-flight bounds. -/
structure SysState where
  isConnected : Bool
  inFlight : Nat
deriving DecidableEq

/-- A timer tick (DEBUG false) as a transition: when the gate of `tick`
passes, one more fetch is in flight; otherwise nothing changes; `none` -
the minute parse died. -/
def tickStep (s : SysState) (minStr : String) : Option SysState :=
  match tickFetches false s.isConnected minStr with
  | none => none
  | some true => some ⟨s.isConnected, s.inFlight + 1⟩
  | some false => some s

/-- `validatedDefaultMap` is the default table after `checkConfig` has
precomputed the `shellyRGB` fields. -/
def validatedDefaultMap : List MapEntry :=
  match checkConfig priceColorMap with
  | Except.ok v => v
  | Except.error _ => []

theorem jsGE_num_true_iff (p f : Rat) : jsGE (JVal.jnum p) f = true ↔ f ≤ p := by
  simp [jsGE, toNumber]

theorem jsGE_nonNumber {v : JVal} (hv : toNumber v = none) (f : Rat) :
    jsGE v f = false := by
  simp [jsGE, hv]

theorem findPriceEntry_nonNumber {v : JVal} (hv : toNumber v = none)
    (t : List MapEntry) : findPriceEntry v t = none := by
  induction t with
  | nil => rfl
  | cons a l ih => simp [findPriceEntry, ih, jsGE_nonNumber hv]

theorem findPriceEntry_some {v : JVal} :
    ∀ {t : List MapEntry} {e : MapEntry}, findPriceEntry v t = some e →
      e ∈ t ∧ jsGE v e.fromPriceWithTax = true := by
  intro t
  induction t with
  | nil => intro e h; simp [findPriceEntry] at h
  | cons a l ih =>
    intro e h
    simp only [findPriceEntry] at h
    cases hl : findPriceEntry v l with
    | some r =>
      rw [hl] at h
      obtain ⟨hm, hg⟩ := ih hl
      cases h
      exact ⟨List.mem_cons_of_mem _ hm, hg⟩
    | none =>
      rw [hl] at h
      by_cases hg : jsGE v a.fromPriceWithTax = true
      · rw [if_pos hg] at h
        cases h
        exact ⟨List.mem_cons_self _ _, hg⟩
      · rw [if_neg hg] at h
        cases h

theorem findPriceEntry_none_iff {v : JVal} :
    ∀ {t : List MapEntry}, findPriceEntry v t = none ↔
      ∀ e ∈ t, jsGE v e.fromPriceWithTax = false := by
  intro t
  induction t with
  | nil => simp [findPriceEntry]
  | cons a l ih =>
    cases hl : findPriceEntry v l with
    | some r =>
      obtain ⟨hm, hg⟩ := findPriceEntry_some hl
      simp only [findPriceEntry, hl, List.mem_cons, forall_eq_or_imp]
      constructor
      · intro h; cases h
      · rintro ⟨_, hall⟩
        exact absurd (hall r hm) (by simp [hg])
    | none =>
      have ihl := ih.mp hl
      simp only [findPriceEntry, hl, List.mem_cons, forall_eq_or_imp]
      by_cases hg : jsGE v a.fromPriceWithTax = true
      · rw [if_pos hg]
        constructor
        · intro h; cases h
        · rintro ⟨ha, _⟩; rw [hg] at ha; cases ha
      · simp only [Bool.not_eq_true] at hg
        rw [if_neg (by simp [hg])]
        constructor
        · intro _; exact ⟨hg, ihl⟩
        · intro _; rfl

theorem rising_tail {a : MapEntry} {l : List MapEntry}
    (h : risingOrder (a :: l) = true) : risingOrder l = true := by
  cases l with
  | nil => rfl
  | cons b m =>
    simp only [risingOrder, Bool.and_eq_true] at h
    exact h.2

theorem rising_head_lt : ∀ {a : MapEntry} {l : List MapEntry},
    risingOrder (a :: l) = true →
    ∀ x ∈ l, a.fromPriceWithTax < x.fromPriceWithTax := by
  intro a l
  induction l generalizing a with
  | nil => intro _ x hx; cases hx
  | cons b m ih =>
    intro h x hx
    simp only [risingOrder, Bool.and_eq_true, decide_eq_true_eq] at h
    obtain ⟨hab, hbm⟩ := h
    rcases List.mem_cons.mp hx with rfl | hxm
    · exact hab
    · exact lt_trans hab (ih (by simpa [risingOrder] using hbm) x hxm)

theorem rising_floor_inj : ∀ {t : List MapEntry}, risingOrder t = true →
    ∀ {x y : MapEntry}, x ∈ t → y ∈ t →
      x.fromPriceWithTax = y.fromPriceWithTax → x = y := by
  intro t
  induction t with
  | nil => intro _ x y hx; cases hx
  | cons a l ih =>
    intro h x y hx hy hxy
    rcases List.mem_cons.mp hx with rfl | hxl
    · rcases List.mem_cons.mp hy with rfl | hyl
      · rfl
      · exact absurd hxy (ne_of_lt (rising_head_lt h y hyl))
    · rcases List.mem_cons.mp hy with rfl | hyl
      · exact absurd hxy.symm (ne_of_lt (rising_head_lt h x hxl))
      · exact ih (rising_tail h) hxl hyl hxy

theorem resolve_char : ∀ (t : List MapEntry) (p : Rat) (e : MapEntry),
    risingOrder t = true →
    (findPriceEntry (JVal.jnum p) t = some e ↔
      e ∈ t ∧ e.fromPriceWithTax ≤ p ∧
        ∀ x ∈ t, x.fromPriceWithTax ≤ p →
          x.fromPriceWithTax ≤ e.fromPriceWithTax) := by
  intro t p
  induction t with
  | nil => intro e _; simp [findPriceEntry]
  | cons a l ih =>
    intro e ht
    have htl := rising_tail ht
    have hhd := rising_head_lt ht
    cases hl : findPriceEntry (JVal.jnum p) l with
    | some r =>
      obtain ⟨hrmem, hrle, hrmax⟩ := (ih r htl).mp hl
      simp only [findPriceEntry, hl]
      constructor
      · intro h
        obtain rfl : r = e := Option.some.inj h
        refine ⟨List.mem_cons_of_mem _ hrmem, hrle, ?_⟩
        intro x hx hxp
        rcases List.mem_cons.mp hx with rfl | hxl
        · exact le_of_lt (hhd r hrmem)
        · exact hrmax x hxl hxp
      · rintro ⟨hemem, hele, hemax⟩
        have hrle2 : r.fromPriceWithTax ≤ e.fromPriceWithTax :=
          hemax r (List.mem_cons_of_mem _ hrmem) hrle
        rcases List.mem_cons.mp hemem with rfl | hel
        · exact absurd hrle2 (not_le.mpr (hhd r hrmem))
        · have hele2 : e.fromPriceWithTax ≤ r.fromPriceWithTax :=
            hrmax e hel hele
          rw [rising_floor_inj htl hel hrmem (le_antisymm hele2 hrle2)]
    | none =>
      have hlgt : ∀ x ∈ l, ¬ x.fromPriceWithTax ≤ p := by
        intro x hx
        have hfx := findPriceEntry_none_iff.mp hl x hx
        intro hle
        rw [(jsGE_num_true_iff p x.fromPriceWithTax).mpr hle] at hfx
        cases hfx
      simp only [findPriceEntry, hl]
      by_cases ha : a.fromPriceWithTax ≤ p
      · rw [if_pos ((jsGE_num_true_iff p a.fromPriceWithTax).mpr ha)]
        constructor
        · intro h
          obtain rfl : a = e := Option.some.inj h
          refine ⟨List.mem_cons_self _ _, ha, ?_⟩
          intro x hx hxp
          rcases List.mem_cons.mp hx with rfl | hxl
          · exact le_refl _
          · exact absurd hxp (hlgt x hxl)
        · rintro ⟨hemem, hele, _⟩
          rcases List.mem_cons.mp hemem with rfl | hel
          · rfl
          · exact absurd hele (hlgt e hel)
      · rw [if_neg (by simp [jsGE_num_true_iff, ha])]
        constructor
        · intro h; cases h
        · rintro ⟨hemem, hele, _⟩
          rcases List.mem_cons.mp hemem with rfl | hel
          · exact absurd hele ha
          · exact absurd hele (hlgt e hel)

theorem findPriceEntry_head_le {a : MapEntry} {l : List MapEntry} {p : Rat}
    (hap : a.fromPriceWithTax ≤ p) :
    (findPriceEntry (JVal.jnum p) (a :: l)).isSome = true := by
  simp only [findPriceEntry]
  cases hl : findPriceEntry (JVal.jnum p) l with
  | some r => rfl
  | none =>
    rw [if_pos ((jsGE_num_true_iff p a.fromPriceWithTax).mpr hap)]
    rfl

theorem jsRoundRatio_eq_floor (n d : Nat) (hd : 0 < d) :
    (jsRoundRatio n d : Int) = ⌊(n : Rat) / (d : Rat) + (1 : Rat) / 2⌋ := by
  have hd0 : (d : Rat) ≠ 0 := Nat.cast_ne_zero.mpr hd.ne'
  have h : (n : Rat) / (d : Rat) + (1 : Rat) / 2
      = ((2 * n + d : Nat) : Rat) / ((2 * d : Nat) : Rat) := by
    push_cast
    field_simp
    ring
  rw [h, Rat.floor_natCast_div_natCast]
  rfl

theorem hexCharToInt_isSome {c : Nat} (h : isHexDigitCode c = true) :
    (hexCharToInt c).isSome = true := by
  simp only [isHexDigitCode, Bool.or_eq_true, Bool.and_eq_true,
    decide_eq_true_eq] at h
  unfold hexCharToInt
  rcases h with (⟨h1, h2⟩ | ⟨h1, h2⟩) | ⟨h1, h2⟩
  · rw [if_pos ⟨h1, h2⟩]; rfl
  · rw [if_neg (by omega), if_pos ⟨h1, h2⟩]; rfl
  · rw [if_neg (by omega), if_neg (by omega), if_pos ⟨h1, h2⟩]; rfl

theorem hexToShellyColorValue_pair {a b : Char}
    (ha : isHexDigitCode a.toNat = true) (hb : isHexDigitCode b.toNat = true) :
    (hexToShellyColorValue (String.mk [a, b])).isSome = true := by
  obtain ⟨x, hx⟩ := Option.isSome_iff_exists.mp (hexCharToInt_isSome ha)
  obtain ⟨y, hy⟩ := Option.isSome_iff_exists.mp (hexCharToInt_isSome hb)
  have h0 : strAt (String.mk [a, b]) 0 = some a.toNat := rfl
  have h1 : strAt (String.mk [a, b]) 1 = some b.toNat := rfl
  simp [hexToShellyColorValue, hexToInt, h0, h1, hx, hy]

theorem RGBStringToShellyValues_total {a b c d e f : Char}
    (ha : isHexDigitCode a.toNat = true) (hb : isHexDigitCode b.toNat = true)
    (hc : isHexDigitCode c.toNat = true) (hd : isHexDigitCode d.toNat = true)
    (he : isHexDigitCode e.toNat = true) (hf : isHexDigitCode f.toNat = true) :
    (RGBStringToShellyValues
      (String.mk [Char.ofNat 35, a, b, c, d, e, f])).isSome = true := by
  have s1 : jsSlice (String.mk [Char.ofNat 35, a, b, c, d, e, f]) 1 3
      = String.mk [a, b] := rfl
  have s2 : jsSlice (String.mk [Char.ofNat 35, a, b, c, d, e, f]) 3 5
      = String.mk [c, d] := rfl
  have s3 : jsSlice (String.mk [Char.ofNat 35, a, b, c, d, e, f]) 5 7
      = String.mk [e, f] := rfl
  obtain ⟨r1, hr1⟩ :=
    Option.isSome_iff_exists.mp (hexToShellyColorValue_pair ha hb)
  obtain ⟨r2, hr2⟩ :=
    Option.isSome_iff_exists.mp (hexToShellyColorValue_pair hc hd)
  obtain ⟨r3, hr3⟩ :=
    Option.isSome_iff_exists.mp (hexToShellyColorValue_pair he hf)
  simp [RGBStringToShellyValues, s1, s2, s3, hr1, hr2, hr3]

theorem isQuarterOfAnHour_minuteStr (m : Nat) (hm : m < 60) :
    isQuarterOfAnHour (minuteStr m) = some (decide (m % 15 = 0)) := by
  interval_cases m <;> rfl

theorem checkFirstFloor_ok_iff (m : List MapEntry) :
    isOkE (checkFirstFloor m) = true ↔
      (m ≠ [] ∧ ∀ a, m.head? = some a → a.fromPriceWithTax ≤ 0) := by
  cases m with
  | nil => simp [checkFirstFloor, isOkE]
  | cons a l =>
    by_cases h : a.fromPriceWithTax > 0
    · rw [checkFirstFloor, if_pos h]
      simp only [isOkE, List.head?_cons, ne_eq, reduceCtorEq,
        not_false_eq_true, true_and, Bool.false_eq_true, false_iff]
      exact fun hall => absurd (hall a rfl) (not_le.mpr h)
    · rw [checkFirstFloor, if_neg h]
      simp only [isOkE, List.head?_cons, ne_eq, reduceCtorEq,
        not_false_eq_true, true_and, true_iff, Option.some.injEq]
      rintro x rfl
      exact not_lt.mp h

theorem checkRising_ok_iff : ∀ m : List MapEntry,
    isOkE (checkRising m) = true ↔ risingOrder m = true
  | [] => by simp [checkRising, risingOrder, isOkE]
  | [e] => by simp [checkRising, risingOrder, isOkE]
  | a :: b :: rest => by
    by_cases h : a.fromPriceWithTax >= b.fromPriceWithTax
    · rw [checkRising, if_pos h]
      simp [isOkE, risingOrder, not_lt.mpr h]
    · rw [checkRising, if_neg h]
      rw [checkRising_ok_iff (b :: rest)]
      simp [risingOrder, not_le.mp h]

theorem checkBrightness_ok_iff : ∀ m : List MapEntry,
    isOkE (checkBrightness m) = true ↔
      ∀ e ∈ m, brightnessInRange e.onBrightness = true ∧
        brightnessInRange e.offBrightness = true
  | [] => by simp [checkBrightness, isOkE]
  | e :: rest => by
    by_cases hOn : brightnessInRange e.onBrightness = true
    · by_cases hOff : brightnessInRange e.offBrightness = true
      · rw [checkBrightness, if_neg (by simp [hOn]), if_neg (by simp [hOff])]
        rw [checkBrightness_ok_iff rest]
        simp [hOn, hOff]
      · rw [checkBrightness, if_neg (by simp [hOn]), if_pos (by simp [hOff])]
        simp only [isOkE, Bool.false_eq_true, false_iff]
        exact fun hall => absurd (hall e (List.mem_cons_self _ _)).2 hOff
    · rw [checkBrightness, if_pos (by simp [hOn])]
      simp only [isOkE, Bool.false_eq_true, false_iff]
      exact fun hall => absurd (hall e (List.mem_cons_self _ _)).1 hOn

theorem precompute_ok_iff : ∀ m : List MapEntry,
    isOkE (precompute m) = true ↔ ∀ e ∈ m, colorResolves e.color = true
  | [] => by simp [precompute, isOkE]
  | e :: rest => by
    cases hr : resolveColorToken e.color with
    | error err =>
      simp only [precompute, hr, isOkE, Bool.false_eq_true, false_iff]
      exact fun hall =>
        absurd (hall e (List.mem_cons_self _ _)) (by simp [colorResolves, hr])
    | ok s =>
      cases hv : RGBStringToShellyValues s with
      | none =>
        simp only [precompute, hr, hv, isOkE, Bool.false_eq_true, false_iff]
        exact fun hall =>
          absurd (hall e (List.mem_cons_self _ _))
            (by simp [colorResolves, hr, hv])
      | some rgb =>
        have hres : colorResolves e.color = true := by
          simp [colorResolves, hr, hv]
        have hrec := precompute_ok_iff rest
        cases hp : precompute rest with
        | error err =>
          rw [hp] at hrec
          simp only [precompute, hr, hv, hp, isOkE, Bool.false_eq_true,
            false_iff] at hrec ⊢
          exact fun hall =>
            hrec fun x hx => hall x (List.mem_cons_of_mem _ hx)
        | ok tail =>
          rw [hp] at hrec
          simp only [isOkE, true_iff] at hrec
          simp only [precompute, hr, hv, hp, isOkE, true_iff, List.mem_cons,
            forall_eq_or_imp]
          exact ⟨hres, hrec⟩

theorem checkConfig_stages (m : List MapEntry) :
    isOkE (checkConfig m)
      = (isOkE (checkFirstFloor m) && (isOkE (checkRising m)
          && (isOkE (checkBrightness m) && isOkE (precompute m)))) := by
  unfold checkConfig
  cases h1 : checkFirstFloor m <;> cases h2 : checkRising m <;>
    cases h3 : checkBrightness m <;> cases h4 : precompute m <;>
    simp [isOkE, h1, h2, h3, h4]

theorem checkConfig_ok_iff (m : List MapEntry) :
    isOkE (checkConfig m) = true ↔
      (m ≠ [] ∧ (∀ a, m.head? = some a → a.fromPriceWithTax ≤ 0) ∧
        risingOrder m = true ∧
        (∀ e ∈ m, brightnessInRange e.onBrightness = true ∧
          brightnessInRange e.offBrightness = true) ∧
        ∀ e ∈ m, colorResolves e.color = true) := by
  rw [checkConfig_stages]
  simp only [Bool.and_eq_true]
  rw [checkFirstFloor_ok_iff, checkRising_ok_iff, checkBrightness_ok_iff,
    precompute_ok_iff]
  tauto

/-- Table of the end-to-end scenario of the spec: floors -1.0, 0.0, 0.09
with appearances A (purple), B (green), C (turquoise). -/
def exampleTable : List MapEntry :=
  [⟨-1, "purple", 80, 10, []⟩,
   ⟨0, "green", 80, 10, []⟩,
   ⟨Rat.divInt 9 100, "turquoise", 50, 7, []⟩]

/-- A one-entry table whose only floor is -1.0; it passes `checkConfig`. -/
def singleEntryMap : List MapEntry := [⟨-1, "purple", 80, 10, []⟩]

/-- `singleEntryMap` after validation (with `shellyRGB` precomputed). -/
def singleEntryValidated : List MapEntry :=
  match checkConfig singleEntryMap with
  | Except.ok v => v
  | Except.error _ => []

/-- Claim C1: on a table with strictly rising floors (what validation
enforces), the descending scan of `handleResponse` returns exactly the
entry with the greatest `fromPriceWithTax` less than or equal to the
price; a price equal to a floor selects that entry. The concrete
conjuncts run the scan on the spec's example table: 0.05 selects the 0.0
entry, -0.5 the -1.0 entry, 0.09 exactly the 0.09 entry. -/
theorem spec_c1 :
    (∀ m, isOkE (checkConfig m) = true → risingOrder m = true)
    ∧ (∀ (t : List MapEntry) (p : Rat) (e : MapEntry), risingOrder t = true →
      (findPriceEntry (JVal.jnum p) t = some e ↔
        e ∈ t ∧ e.fromPriceWithTax ≤ p ∧
          ∀ x ∈ t, x.fromPriceWithTax ≤ p →
            x.fromPriceWithTax ≤ e.fromPriceWithTax))
    ∧ findPriceEntry (JVal.jnum (Rat.divInt 5 100)) exampleTable
        = some ⟨0, "green", 80, 10, []⟩
    ∧ findPriceEntry (JVal.jnum (Rat.divInt (-5) 10)) exampleTable
        = some ⟨-1, "purple", 80, 10, []⟩
    ∧ findPriceEntry (JVal.jnum (Rat.divInt 9 100)) exampleTable
        = some ⟨Rat.divInt 9 100, "turquoise", 50, 7, []⟩ :=
  ⟨fun m h => ((checkConfig_ok_iff m).mp h).2.2.1,
   resolve_char, by decide, by decide, by decide⟩

/-- Claim C2 counterexample: the table with the single floor -1.0 passes
validation, yet the finite price -2 matches no entry, so `handleResponse`
reaches the `die("price not found")` branch. The claim's "for every
finite real price" is false. -/
theorem spec_c2_cex :
    isOkE (checkConfig singleEntryMap) = true
    ∧ findPriceEntry (JVal.jnum (-2)) singleEntryValidated = none
    ∧ handleResponse singleEntryValidated true (some ⟨200, JVal.jnum (-2)⟩)
        = (true, [Effect.died dieNotFoundMsg]) :=
  ⟨by decide, by decide, by decide⟩

/-- Claim C2 as amended: the scan finds a match - and the die branch is
not reached - for every price greater than or equal to the first entry's
floor; since validation forces that floor to be at most 0, this covers
every nonnegative price, but a price strictly below the first floor still
dies. -/
theorem spec_c2 :
    (∀ (a : MapEntry) (l : List MapEntry) (p : Rat),
      a.fromPriceWithTax ≤ p →
      ∃ e, findPriceEntry (JVal.jnum p) (a :: l) = some e
        ∧ handleResponse (a :: l) true (some ⟨200, JVal.jnum p⟩)
            = (true,
               [Effect.setLight e.shellyRGB e.onBrightness e.offBrightness]))
    ∧ handleResponse singleEntryValidated true (some ⟨200, JVal.jnum 0⟩)
        = (true, [Effect.setLight [50, 0, 50] 80 10]) := by
  refine ⟨?_, by decide⟩
  intro a l p hap
  cases hfind : findPriceEntry (JVal.jnum p) (a :: l) with
  | none =>
    have hsome := findPriceEntry_head_le (l := l) hap
    rw [hfind] at hsome
    cases hsome
  | some e =>
    exact ⟨e, rfl, by simp [handleResponse, hfind]⟩

/-- Claim C3: `checkConfig` fails fatally on each violation class
independently (empty table, positive first floor, non-rising floors,
brightness out of range, unknown color token, invalid hex digit), stops
at the first violation in check order, and accepts exactly the tables
with none of these violations - in particular the default map. -/
theorem spec_c3 :
    checkConfig [] = Except.error ConfigError.typeErrorEmpty
    ∧ checkConfig [⟨Rat.divInt 1 10, "green", 80, 10, []⟩]
        = Except.error ConfigError.firstFloorPositive
    ∧ checkConfig [⟨0, "green", 80, 10, []⟩, ⟨0, "red", 50, 10, []⟩]
        = Except.error ConfigError.orderFailure
    ∧ checkConfig [⟨0, "green", 101, 10, []⟩]
        = Except.error (ConfigError.onBrightnessOut "green")
    ∧ checkConfig [⟨0, "green", 80, -1, []⟩]
        = Except.error (ConfigError.offBrightnessOut "green")
    ∧ checkConfig [⟨0, "blurple", 80, 10, []⟩]
        = Except.error (ConfigError.unknownColor "blurple")
    ∧ checkConfig [⟨0, "#12G456", 80, 10, []⟩]
        = Except.error ConfigError.invalidHexDigit
    ∧ checkConfig [⟨0, "green", 200, 10, []⟩, ⟨-1, "blurple", 80, 10, []⟩]
        = Except.error ConfigError.orderFailure
    ∧ (∀ m, isOkE (checkConfig m) = true ↔
        (m ≠ [] ∧ (∀ a, m.head? = some a → a.fromPriceWithTax ≤ 0) ∧
          risingOrder m = true ∧
          (∀ e ∈ m, brightnessInRange e.onBrightness = true ∧
            brightnessInRange e.offBrightness = true) ∧
          ∀ e ∈ m, colorResolves e.color = true))
    ∧ isOkE (checkConfig priceColorMap) = true :=
  ⟨rfl, rfl, rfl, rfl, rfl, rfl, rfl, rfl, checkConfig_ok_iff, by decide⟩

set_option maxRecDepth 8000 in
/-- Claim C4: per channel the code rounds x * 0.392156, which agrees with
round(x * 100/255) for every x in 0..255 (stated against the mathematical
round-half-up ⌊x * 100/255 + 1/2⌋); the conversion is total on any
hash-marked 6-hex-digit string; and the three sample conversions hold. -/
theorem spec_c4 :
    (∀ x : Fin 256, shellyChannelScale x.val
        = ⌊(x.val : Rat) * ((100 : Rat) / 255) + (1 : Rat) / 2⌋)
    ∧ (∀ a b c d e f : Char,
        isHexDigitCode a.toNat = true → isHexDigitCode b.toNat = true →
        isHexDigitCode c.toNat = true → isHexDigitCode d.toNat = true →
        isHexDigitCode e.toNat = true → isHexDigitCode f.toNat = true →
        (RGBStringToShellyValues
          (String.mk [Char.ofNat 35, a, b, c, d, e, f])).isSome = true)
    ∧ RGBStringToShellyValues "#FFFFFF" = some [100, 100, 100]
    ∧ RGBStringToShellyValues "#000000" = some [0, 0, 0]
    ∧ RGBStringToShellyValues "#A300FF" = some [64, 0, 100] := by
  refine ⟨?_, fun a b c d e f ha hb hc hd he hf =>
    RGBStringToShellyValues_total ha hb hc hd he hf, by decide, by decide,
    by decide⟩
  intro x
  have hnat : ∀ y : Fin 256,
      jsRoundRatio (y.val * 392156) 1000000 = jsRoundRatio (y.val * 100) 255 := by
    decide
  have h1 := jsRoundRatio_eq_floor (x.val * 100) 255 (by norm_num)
  have h2 : ((x.val * 100 : Nat) : Rat) / ((255 : Nat) : Rat)
      = (x.val : Rat) * ((100 : Rat) / 255) := by
    push_cast
    ring
  have h3 : shellyChannelScale x.val = (jsRoundRatio (x.val * 100) 255 : Int) := by
    unfold shellyChannelScale
    exact_mod_cast hnat x
  rw [h3, h1, h2]

/-- Claim C5 counterexample: from the reachable post-startup state
(offline, the startup fetch still outstanding), the next timer tick
issues a second fetch: two fetches are then in flight, so a tick arriving
before the previous completion is not a no-op. -/
theorem spec_c5_cex :
    tickStep ⟨false, 0⟩ (minuteStr 1) = some ⟨false, 1⟩
    ∧ tickStep ⟨false, 1⟩ (minuteStr 2) = some ⟨false, 2⟩ :=
  ⟨rfl, rfl⟩

/-- Claim C5 as amended: the code keeps no in-flight flag at all - while
offline, every timer tick issues a fetch whatever the number of
outstanding fetches, so concurrent fetches accumulate without bound
rather than being limited to one. -/
theorem spec_c5 :
    (∀ (s : SysState) (minStr : String), s.isConnected = false →
      tickStep s minStr = some ⟨false, s.inFlight + 1⟩)
    ∧ tickStep ⟨false, 5⟩ (minuteStr 3) = some ⟨false, 6⟩ := by
  refine ⟨?_, rfl⟩
  intro s minStr h
  cases s with
  | mk c n =>
    cases h
    rfl

/-- Claim C6: with DEBUG false a tick issues a fetch exactly when the
connected flag is down or the minute is 0 mod 15; concrete conjuncts:
online minute 30 fetches, online minute 7 does not, offline any minute
fetches. -/
theorem spec_c6 :
    (∀ (c : Bool) (m : Nat), m < 60 →
      tickFetches false c (minuteStr m) = some (!c || decide (m % 15 = 0)))
    ∧ tickFetches false true (minuteStr 30) = some true
    ∧ tickFetches false true (minuteStr 7) = some false
    ∧ (∀ m : Nat, tickFetches false false (minuteStr m) = some true) := by
  refine ⟨?_, rfl, rfl, fun m => rfl⟩
  intro c m hm
  cases c with
  | false => rfl
  | true =>
    have hq := isQuarterOfAnHour_minuteStr m hm
    show isQuarterOfAnHour (minuteStr m) = some (!true || decide (m % 15 = 0))
    rw [hq]
    simp

/-- Whether a callback argument counts as a failed fetch in
`handleResponse`: a falsy response or a status other than 200. -/
def respFails : Option Response -> Bool
  | none => true
  | some r => !(r.code == 200)

/-- Claim C7: a failed fetch while the connected flag is up leaves the
flag up and calls no `configureLight` (only the invalid-response log
runs); a failed fetch while the flag is down re-runs `disConnected`
(white light), matching "only a failure while already offline or a
disconnect event drives the offline appearance". -/
theorem spec_c7 :
    (∀ (pmap : List MapEntry) (resp : Option Response),
      respFails resp = true →
      handleResponse pmap true resp = (true, [Effect.logMsg invalidRespMsg]))
    ∧ (∀ (pmap : List MapEntry) (resp : Option Response),
      respFails resp = true →
      handleResponse pmap false resp
        = (false, disConnectedEffects ++ [Effect.logMsg invalidRespMsg]))
    ∧ handleResponse validatedDefaultMap true (some ⟨500, JVal.undef⟩)
        = (true, [Effect.logMsg invalidRespMsg])
    ∧ handleResponse validatedDefaultMap true none
        = (true, [Effect.logMsg invalidRespMsg])
    ∧ handleResponse validatedDefaultMap false (some ⟨500, JVal.undef⟩)
        = (false, [Effect.setLight [100, 100, 100] 50 10,
                   Effect.logMsg invalidRespMsg]) := by
  refine ⟨?_, ?_, by decide, by decide, by decide⟩
  · intro pmap resp h
    cases resp with
    | none => rfl
    | some r =>
      have hne : ¬ r.code = 200 := by simpa [respFails] using h
      simp [handleResponse, hne]
  · intro pmap resp h
    cases resp with
    | none => rfl
    | some r =>
      have hne : ¬ r.code = 200 := by simpa [respFails] using h
      simp [handleResponse, hne]

/-- A connect event runs `tick()` with its gate intact (only restated,
proved definitionally): the cloud-connected event path reduces to the
tick gate. -/
theorem handleEvents_cloud_connected (isConnected : Bool) (minStr : String) :
    handleEvents true false isConnected minStr (some ⟨"cloud", "connected"⟩)
      = match tickFetches false isConnected minStr with
        | none => none
        | some fetched => some (fetched, isConnected, []) := rfl

/-- Claim C8 counterexample: with cloud enabled, the connected flag up and
the minute at 7, a cloud "connected" event issues no fetch - the
connect-event path goes through `tick()` and its quarter-hour gate, so
it does not fetch "regardless of state and minute". -/
theorem spec_c8_cex :
    handleEvents true false true (minuteStr 7) (some ⟨"cloud", "connected"⟩)
      = some (false, true, []) := by decide

/-- Claim C8 as amended: a connect event (cloud "connected" with cloud
enabled, wifi "sta_ip_acquired" otherwise) runs `tick()`; while the
connected flag is down this issues an immediate fetch whatever the
minute, but while the flag is up the ordinary quarter-hour gate applies
(fetch exactly on minutes 0 mod 15). -/
theorem spec_c8 :
    (∀ minStr : String,
      handleEvents true false false minStr (some ⟨"cloud", "connected"⟩)
        = some (true, false, []))
    ∧ (∀ minStr : String,
      handleEvents false false false minStr (some ⟨"wifi", "sta_ip_acquired"⟩)
        = some (true, false, []))
    ∧ (∀ m : Nat, m < 60 →
      handleEvents true false true (minuteStr m) (some ⟨"cloud", "connected"⟩)
        = some (decide (m % 15 = 0), true, [])) := by
  refine ⟨fun minStr => rfl, fun minStr => rfl, ?_⟩
  intro m hm
  have hq := isQuarterOfAnHour_minuteStr m hm
  have ht : tickFetches false true (minuteStr m) = some (decide (m % 15 = 0)) := by
    show isQuarterOfAnHour (minuteStr m) = some (decide (m % 15 = 0))
    exact hq
  rw [handleEvents_cloud_connected, ht]

/-- Claim C9: for a 200 response whose parsed body lacks a numeric
PriceWithTax - the field absent (undefined) or holding a non-number such
as null or a boolean, all of which mjs relational operators read as NaN -
every comparison against the floors is false, the descending scan falls
through, and the fatal die branch is reached even with the fully
validated default table. -/
theorem spec_c9 :
    (∀ (v : JVal), toNumber v = none →
      ∀ (t : List MapEntry) (c : Bool),
        handleResponse t c (some ⟨200, v⟩)
          = (true, [Effect.died dieNotFoundMsg]))
    ∧ toNumber JVal.undef = none
    ∧ toNumber JVal.jnull = none
    ∧ (∀ b : Bool, toNumber (JVal.jbool b) = none)
    ∧ isOkE (checkConfig priceColorMap) = true
    ∧ handleResponse validatedDefaultMap true (some ⟨200, JVal.undef⟩)
        = (true, [Effect.died dieNotFoundMsg])
    ∧ handleResponse validatedDefaultMap true (some ⟨200, JVal.jnull⟩)
        = (true, [Effect.died dieNotFoundMsg])
    ∧ handleResponse validatedDefaultMap true (some ⟨200, JVal.jbool true⟩)
        = (true, [Effect.died dieNotFoundMsg]) := by
  refine ⟨?_, rfl, rfl, fun b => rfl, by decide, by decide, by decide,
    by decide⟩
  intro v hv t c
  simp [handleResponse, findPriceEntry_nonNumber hv t]

/-- Claim C10: `brightnessInRange` tests only 0 <= b <= 100 and nothing
about integrality - every rational in [0, 100] passes, 50.5 included, and
`checkConfig` accepts a table with brightness 50.5. -/
theorem spec_c10 :
    (∀ b : Rat, 0 ≤ b → b ≤ 100 → brightnessInRange b = true)
    ∧ brightnessInRange (Rat.divInt 101 2) = true
    ∧ isOkE (checkConfig [⟨0, "green", Rat.divInt 101 2, 10, []⟩]) = true := by
  refine ⟨?_, by decide, by decide⟩
  intro b h1 h2
  simp only [brightnessInRange, Bool.and_eq_true, decide_eq_true_eq,
    ge_iff_le]
  exact ⟨h1, h2⟩

end PlusPlug
